import Mathlib

/-!
Verification of the SST snapshot staging layer
(`pkg/kv/kvserver/replica_sst_snapshot_storage.go`).

The Go code manages temporary directories of SST files while a replica
receives a snapshot: `SSTSnapshotStorage` owns a per-range reference count
and the root directory, `SSTSnapshotStorageScratch` owns one snapshot's
subdirectory and file list, and `SSTSnapshotStorageFile` is one lazily
created output file.

Shallow embedding choices:
- the storage engine's filesystem is modelled by `FS`, a list of existing
  directories and a list of files with byte contents; paths are lists of
  components (`filepath.Join` is list append);
- each engine call that can fail in Go takes an explicit `Option Err`
  argument injecting that call's outcome, so every operation is a pure,
  executable state transformer;
- Go's `panic` is a distinguished `fatal` outcome, not an error value;
- the `storage` back-pointers are flattened: the scratch stores the root
  directory (`storage.dir`) and the operations that touch the refcount map
  take it as an explicit argument.
-/

/-- Error values returned by the staging layer or injected for the engine. -/
inductive Err where
  /-- Go `errors.AssertionFailedf("SSTSnapshotStorageScratch closed")`. -/
  | assertScratchClosed
  /-- Go `errors.Errorf("file has already been closed")`. -/
  | fileAlreadyClosed
  /-- Go `errors.New("file is empty")`. -/
  | fileIsEmpty
  /-- Context cancellation surfaced by the rate limiter wait. -/
  | ctxCanceled
  /-- An injected I/O failure from the storage engine. -/
  | ioErr
deriving DecidableEq, Repr

/-- A filesystem path, as the list of its components (`filepath.Join` is `++`). -/
abbrev FPath := List String

/-- Go `roachpb.RangeID` (an int64; overflow is irrelevant to these claims). -/
abbrev RangeID := Int

/-- Whether `pre` is an ancestor-or-equal of `p` (component-wise list prefix);
`RemoveAll pre` removes exactly the entries `p` with `leadsTo pre p`. -/
def leadsTo : FPath → FPath → Bool
  | [], _ => true
  | _ :: _, [] => false
  | a :: as, b :: bs => a == b && leadsTo as bs

/-- The modelled filesystem owned by the storage engine: existing directories
and existing files with their byte contents (bytes as `Nat`). -/
structure FS where
  dirs : List FPath
  files : List (FPath × List Nat)
deriving DecidableEq, Repr

/-- Engine `MkdirAll`: on success the directory exists. -/
def fsMkdirAll (fs : FS) (p : FPath) : FS :=
  { fs with dirs := p :: fs.dirs }

/-- Engine `RemoveAll`: on success removes `p` and everything below it. -/
def fsRemoveAll (fs : FS) (p : FPath) : FS :=
  { dirs := fs.dirs.filter (fun d => !(leadsTo p d)),
    files := fs.files.filter (fun kv => !(leadsTo p kv.1)) }

/-- Engine `Create` / `CreateWithSync`: on success the file exists with empty
contents (the sync hint changes no modelled state). -/
def fsCreate (fs : FS) (p : FPath) : FS :=
  { fs with files := (p, []) :: fs.files.filter (fun kv => !(kv.1 == p)) }

/-- A successful `file.Write` appends the bytes to the file's contents. -/
def fsAppend (fs : FS) (p : FPath) (data : List Nat) : FS :=
  { fs with files := fs.files.map (fun kv => if kv.1 == p then (kv.1, kv.2 ++ data) else kv) }

/-- No directory or file at or below `p` exists in `fs` (what a successful
recursive removal guarantees). -/
def noEntryUnder (fs : FS) (p : FPath) : Prop :=
  (∀ d ∈ fs.dirs, leadsTo p d = false) ∧ (∀ kv ∈ fs.files, leadsTo p kv.1 = false)

/-- Go `map[roachpb.RangeID]int`: `none` is an absent key. -/
abbrev RefMap := RangeID → Option Int

/-- A Go map read: an absent key reads as zero. -/
def refGet (m : RefMap) (r : RangeID) : Int :=
  (m r).getD 0

/-- Invariant of `SSTSnapshotStorage.mu.rangeRefCount`: every present entry
is at least 1. -/
def refInv (m : RefMap) : Prop :=
  ∀ r v, m r = some v → 1 ≤ v

/-- Go `SSTSnapshotStorageScratch`, with the `storage` pointer flattened to
the root directory `root` (= `storage.dir`). -/
structure SSTSnapshotStorageScratch where
  root : FPath
  rangeID : RangeID
  snapDir : FPath
  ssts : List FPath
  dirCreated : Bool
  closed : Bool
deriving DecidableEq, Repr

/-- Go `SSTSnapshotStorage.NewScratchSpace`: increments the refcount for
`rangeID` (creating the entry if absent) and returns the new map together
with a fresh scratch whose directory is `dir/rangeID/snapUUID`. Performs no
filesystem I/O. -/
def NewScratchSpace (m : RefMap) (dir : FPath) (rangeID : RangeID) (snapUUID : String) :
    RefMap × SSTSnapshotStorageScratch :=
  (fun r => if r = rangeID then some (refGet m rangeID + 1) else m r,
   { root := dir
     rangeID := rangeID
     snapDir := dir ++ [toString rangeID, snapUUID]
     ssts := []
     dirCreated := false
     closed := false })

/-- Outcome of `SSTSnapshotStorage.scratchClosed`: either the process aborts
(`fatal`, Go `panic`) or it completes with the updated map and filesystem. -/
inductive ClosedOut where
  | fatal
  | ok (m : RefMap) (fs : FS)
deriving Inhabited

/-- Go `SSTSnapshotStorage.scratchClosed`: panics when the stored count is
not positive; otherwise decrements, deleting the entry and removing the
range directory (removal failure swallowed, injected as `removeErr`) when the
count reaches zero. -/
def scratchClosed (m : RefMap) (dir : FPath) (rangeID : RangeID) (fs : FS)
    (removeErr : Option Err) : ClosedOut :=
  let val := refGet m rangeID
  if val ≤ 0 then .fatal
  else
    let val' := val - 1
    if val' = 0 then
      .ok (fun r => if r = rangeID then none else m r)
        (if removeErr.isSome then fs else fsRemoveAll fs (dir ++ [toString rangeID]))
    else
      .ok (fun r => if r = rangeID then some val' else m r) fs

/-- Outcome of `SSTSnapshotStorageScratch.Close`: the process aborts
(only possible through the deferred `scratchClosed` panic), or the call
returns `err` with the updated scratch, map and filesystem; `decremented`
records whether `scratchClosed` ran. -/
inductive CloseOut where
  | fatal
  | returned (sc : SSTSnapshotStorageScratch) (m : RefMap) (fs : FS)
      (decremented : Bool) (err : Option Err)

/-- Go `SSTSnapshotStorageScratch.Close`: a no-op returning nil when already
closed; otherwise sets `closed`, removes `snapDir` (outcome injected as
`removeErr`, retained as the return value) and — via `defer`, hence
unconditionally — runs `scratchClosed` (whose own removal outcome is
injected as `rangeRemoveErr`). -/
def SSTSnapshotStorageScratch.Close (sc : SSTSnapshotStorageScratch) (m : RefMap) (fs : FS)
    (removeErr rangeRemoveErr : Option Err) : CloseOut :=
  if sc.closed then .returned sc m fs false none
  else
    let sc' := { sc with closed := true }
    let fs1 := if removeErr.isSome then fs else fsRemoveAll fs sc.snapDir
    match scratchClosed m sc.root sc.rangeID fs1 rangeRemoveErr with
    | .fatal => .fatal
    | .ok m' fs2 => .returned sc' m' fs2 true removeErr

/-- Go `SSTSnapshotStorageScratch.SSTs`: the names of the files created. -/
def SSTs (sc : SSTSnapshotStorageScratch) : List FPath :=
  sc.ssts

/-- Go `SSTSnapshotStorageScratch.filename`: `snapDir/<id>.sst`. -/
def SSTSnapshotStorageScratch.filename (sc : SSTSnapshotStorageScratch) (id : Nat) : FPath :=
  sc.snapDir ++ [toString id ++ ".sst"]

/-- Go `SSTSnapshotStorageScratch.createDir`: runs `MkdirAll(snapDir)`
(outcome injected as `mkdirErr`) and sets `dirCreated` on success
(`s.dirCreated = s.dirCreated || err == nil`). -/
def SSTSnapshotStorageScratch.createDir (sc : SSTSnapshotStorageScratch) (fs : FS)
    (mkdirErr : Option Err) : SSTSnapshotStorageScratch × FS × Option Err :=
  match mkdirErr with
  | some e => ({ sc with dirCreated := sc.dirCreated || false }, fs, some e)
  | none => ({ sc with dirCreated := sc.dirCreated || true }, fsMkdirAll fs sc.snapDir, none)

/-- Go `SSTSnapshotStorageFile`, with the `scratch` pointer flattened (the
operations take the scratch explicitly) and the Go `ctx` dropped (the
cancellation status is injected at the write that consults it).
`hasHandle` models `f.file != nil`. -/
structure SSTSnapshotStorageFile where
  created : Bool
  hasHandle : Bool
  filename : FPath
  bytesPerSync : Int
deriving DecidableEq, Repr

/-- Go `SSTSnapshotStorageScratch.NewFile`: fails if the scratch is closed;
otherwise names the file after the current length of `ssts`, appends that
name to `ssts` immediately, and returns a not-yet-created file. -/
def SSTSnapshotStorageScratch.NewFile (sc : SSTSnapshotStorageScratch) (bytesPerSync : Int) :
    Except Err SSTSnapshotStorageFile × SSTSnapshotStorageScratch :=
  if sc.closed then (.error .assertScratchClosed, sc)
  else
    let id := sc.ssts.length
    let fn := sc.filename id
    (.ok { created := false, hasHandle := false, filename := fn, bytesPerSync := bytesPerSync },
     { sc with ssts := sc.ssts ++ [fn] })

/-- Runs `NewFile` `n` times in sequence, collecting the results in call
order together with the final scratch. -/
def iterNewFile (sc : SSTSnapshotStorageScratch) (b : Int) :
    Nat → List (Except Err SSTSnapshotStorageFile) × SSTSnapshotStorageScratch
  | 0 => ([], sc)
  | n + 1 =>
    let (r, sc1) := sc.NewFile b
    let (rs, sc2) := iterNewFile sc1 b n
    (r :: rs, sc2)

/-- Result of `SSTSnapshotStorageFile.ensureFile`: updated file, scratch and
filesystem, plus the returned error if any. -/
structure EnsureOut where
  f : SSTSnapshotStorageFile
  sc : SSTSnapshotStorageScratch
  fs : FS
  res : Option Err
deriving DecidableEq, Repr

/-- Go `SSTSnapshotStorageFile.ensureFile`: a created file with a live handle
succeeds; a created file whose handle was released fails ("file has already
been closed"). Otherwise it lazily creates the scratch directory when needed
(`mkdirErr` injected), fails if the scratch is meanwhile closed, and opens
the underlying file (`createErr` injected; `Create` vs `CreateWithSync`
differ only in a sync hint with no modelled state). -/
def SSTSnapshotStorageFile.ensureFile (f : SSTSnapshotStorageFile)
    (sc : SSTSnapshotStorageScratch) (fs : FS) (mkdirErr createErr : Option Err) : EnsureOut :=
  if f.created then
    if f.hasHandle then ⟨f, sc, fs, none⟩
    else ⟨f, sc, fs, some .fileAlreadyClosed⟩
  else
    let dirStep : SSTSnapshotStorageScratch × FS × Option Err :=
      if sc.dirCreated then (sc, fs, none)
      else sc.createDir fs mkdirErr
    match dirStep with
    | (sc', fs', some e) => ⟨f, sc', fs', some e⟩
    | (sc', fs', none) =>
      if sc'.closed then ⟨f, sc', fs', some .assertScratchClosed⟩
      else
        match createErr with
        | some e => ⟨f, sc', fs', some e⟩
        | none => ⟨{ f with created := true, hasHandle := true }, sc', fsCreate fs' f.filename, none⟩

/-- Modelled from the spec: `limitBulkIOWrite` is defined outside this
excerpt; per the spec it "submits the byte count to the shared rate limiter,
which may block the caller (backpressure) until admission is granted or the
call's context is cancelled, in which case the write fails with a
cancellation error". Modelled as: records the single admission request for
exactly `n` bytes, and returns a cancellation error iff the context is
cancelled. -/
def limitBulkIOWrite (canceled : Bool) (n : Nat) : Option Err × List Nat :=
  (if canceled then some .ctxCanceled else none, [n])

/-- Result of `SSTSnapshotStorageFile.Write`: updated states, the byte count
returned, the admission requests made to the rate limiter, and the error. -/
structure FileWriteOut where
  f : SSTSnapshotStorageFile
  sc : SSTSnapshotStorageScratch
  fs : FS
  n : Nat
  requests : List Nat
  res : Option Err
deriving DecidableEq, Repr

/-- Go `SSTSnapshotStorageFile.Write`: empty contents is a no-op success;
otherwise `ensureFile`, then rate-limiter admission for `len(contents)`
bytes, then the underlying write (`writeErr` injected; Go may report a
partial count on failure, modelled as all-or-nothing). -/
def SSTSnapshotStorageFile.Write (f : SSTSnapshotStorageFile)
    (sc : SSTSnapshotStorageScratch) (fs : FS) (contents : List Nat)
    (mkdirErr createErr : Option Err) (canceled : Bool) (writeErr : Option Err) : FileWriteOut :=
  if contents.length = 0 then ⟨f, sc, fs, 0, [], none⟩
  else
    let e := f.ensureFile sc fs mkdirErr createErr
    match e.res with
    | some err => ⟨e.f, e.sc, e.fs, 0, [], some err⟩
    | none =>
      match limitBulkIOWrite canceled contents.length with
      | (some err, reqs) => ⟨e.f, e.sc, e.fs, 0, reqs, some err⟩
      | (none, reqs) =>
        match writeErr with
        | some err => ⟨e.f, e.sc, e.fs, 0, reqs, some err⟩
        | none => ⟨e.f, e.sc, fsAppend e.fs e.f.filename contents, contents.length, reqs, none⟩

/-- Go `SSTSnapshotStorageFile.Close`: an uncreated file is an error ("file
is empty"); a released handle is a successful no-op; otherwise closes the
handle (`closeErr` injected) and on success clears it (`f.file = nil`). -/
def SSTSnapshotStorageFile.Close (f : SSTSnapshotStorageFile) (closeErr : Option Err) :
    SSTSnapshotStorageFile × Option Err :=
  if !f.created then (f, some .fileIsEmpty)
  else if !f.hasHandle then (f, none)
  else
    match closeErr with
    | some e => (f, some e)
    | none => ({ f with hasHandle := false }, none)

/-- Outcome of `SSTSnapshotStorageFile.Sync`: Go runs `f.file.Sync()` with no
guard, so a nil handle is a nil-interface method call, i.e. a panic
(`nilDeref`); with a live handle the outcome is the injected `syncErr`. -/
inductive SyncOut where
  | nilDeref
  | res (e : Option Err)
deriving DecidableEq, Repr

/-- Go `SSTSnapshotStorageFile.Sync`: `return f.file.Sync()`. -/
def SSTSnapshotStorageFile.Sync (f : SSTSnapshotStorageFile) (syncErr : Option Err) : SyncOut :=
  if f.hasHandle then .res syncErr else .nilDeref

/-- Outcome of `SSTSnapshotStorageScratch.WriteSST`: the process aborts (a
nil-handle `Sync`, unreachable on these paths), or the call returns `res`
with the updated scratch and filesystem. -/
inductive WriteSSTOut where
  | fatal
  | returned (sc : SSTSnapshotStorageScratch) (fs : FS) (res : Option Err)
deriving Inhabited

/-- Go `SSTSnapshotStorageScratch.WriteSST`: fails if the scratch is closed;
empty data is a no-op success; otherwise creates a file (512 KiB sync
threshold), writes, syncs, closes, with a deferred idempotent `Close` whose
error is ignored (`closeErr` injects the explicit close's handle-close
outcome, `closeErr2` the deferred one's). -/
def SSTSnapshotStorageScratch.WriteSST (sc : SSTSnapshotStorageScratch) (fs : FS)
    (data : List Nat) (mkdirErr createErr : Option Err) (canceled : Bool)
    (writeErr syncErr closeErr closeErr2 : Option Err) : WriteSSTOut :=
  if sc.closed then .returned sc fs (some .assertScratchClosed)
  else if data.length = 0 then .returned sc fs none
  else
    match sc.NewFile (512 * 1024) with
    | (.error e, sc') => .returned sc' fs (some e)
    | (.ok f, sc') =>
      let w := f.Write sc' fs data mkdirErr createErr canceled writeErr
      match w.res with
      | some e =>
        -- deferred f.Close(): runs, error ignored, file dropped afterwards
        let _ := w.f.Close closeErr
        .returned w.sc w.fs (some e)
      | none =>
        match w.f.Sync syncErr with
        | .nilDeref => .fatal
        | .res (some e) =>
          let _ := w.f.Close closeErr
          .returned w.sc w.fs (some e)
        | .res none =>
          let c := w.f.Close closeErr
          let _ := c.1.Close closeErr2
          .returned w.sc w.fs c.2

/-! ### Helper lemmas -/

/-- A recursive removal leaves no entry at or below the removed path. -/
lemma noEntryUnder_fsRemoveAll (fs : FS) (p : FPath) : noEntryUnder (fsRemoveAll fs p) p := by
  constructor
  · intro d hd
    rcases List.mem_filter.mp hd with ⟨-, h⟩
    simpa using h
  · intro kv hkv
    rcases List.mem_filter.mp hkv with ⟨-, h⟩
    simpa using h

/-- Removing more entries preserves `noEntryUnder`. -/
lemma noEntryUnder_fsRemoveAll_mono (fs : FS) (p q : FPath) (h : noEntryUnder fs p) :
    noEntryUnder (fsRemoveAll fs q) p := by
  obtain ⟨hd, hf⟩ := h
  constructor
  · intro d hdm
    exact hd d (List.mem_filter.mp hdm).1
  · intro kv hkv
    exact hf kv (List.mem_filter.mp hkv).1

/-- Any scratch handed back by a `Close` that returned carries `closed = true`. -/
lemma close_returns_closed {sc sc' : SSTSnapshotStorageScratch} {m m' : RefMap} {fs fs' : FS}
    {e eR : Option Err} {d : Bool} {r : Option Err}
    (h : sc.Close m fs e eR = .returned sc' m' fs' d r) : sc'.closed = true := by
  unfold SSTSnapshotStorageScratch.Close at h
  cases hc : sc.closed with
  | true =>
    simp only [hc, if_true, CloseOut.returned.injEq] at h
    rw [← h.1, hc]
  | false =>
    simp only [hc, Bool.false_eq_true, if_false] at h
    split at h
    · exact absurd h (by simp)
    · simp only [CloseOut.returned.injEq] at h
      rw [← h.1]

/-! ### Claim theorems -/

/-- C3: `scratchClosed` on a range whose stored reference count is zero or
absent aborts the process (`fatal`, the Go `panic("inconsistent scratch ref
count")`) rather than returning a recoverable error. -/
theorem scratchClosed_underflow_fatal (m : RefMap) (dir : FPath) (r : RangeID) (fs : FS)
    (removeErr : Option Err) (h : m r = none ∨ m r = some 0) :
    scratchClosed m dir r fs removeErr = .fatal := by
  rcases h with h | h <;> simp [scratchClosed, refGet, h]

/-- Witness for C3 at a concrete empty map. -/
theorem scratchClosed_underflow_fatal_witness :
    ((fun _ => none : RefMap) 7 = none ∨ (fun _ => none : RefMap) 7 = some 0) ∧
    scratchClosed (fun _ => none) [] 7 ⟨[], []⟩ none = .fatal :=
  ⟨Or.inl rfl, scratchClosed_underflow_fatal (fun _ => none) [] 7 ⟨[], []⟩ none (Or.inl rfl)⟩

/-- C4: the refcount map keeps every present entry at least 1 across
`NewScratchSpace` and `scratchClosed`; `NewScratchSpace` creates an absent
entry at 1, and a decrement reaching zero deletes the entry instead of
storing zero. -/
theorem rangeRefCount_invariant (m : RefMap) (dir : FPath) (rid : RangeID) (u : String)
    (fs : FS) (eR : Option Err) (hm : refInv m) :
    refInv (NewScratchSpace m dir rid u).1 ∧
    (m rid = none → (NewScratchSpace m dir rid u).1 rid = some 1) ∧
    (∀ m' fs', scratchClosed m dir rid fs eR = .ok m' fs' →
      refInv m' ∧ (refGet m rid = 1 → m' rid = none)) := by
  refine ⟨?_, ?_, ?_⟩
  · intro r v h
    simp only [NewScratchSpace] at h
    by_cases hr : r = rid
    · simp only [hr, if_true, Option.some.injEq] at h
      cases hmr : m rid with
      | none => simp [refGet, hmr] at h; omega
      | some w =>
        have := hm rid w hmr
        simp [refGet, hmr] at h
        omega
    · simp only [hr, if_false] at h
      exact hm r v h
  · intro h0
    simp [NewScratchSpace, refGet, h0]
  · intro m' fs' h
    unfold scratchClosed at h
    by_cases hv : refGet m rid ≤ 0
    · simp [hv] at h
    · simp only [hv, if_false] at h
      by_cases hz : refGet m rid - 1 = 0
      · simp only [hz, if_true, ClosedOut.ok.injEq] at h
        obtain ⟨hm', -⟩ := h
        subst hm'
        refine ⟨?_, ?_⟩
        · intro r v hr
          by_cases hrr : r = rid
          · simp [hrr] at hr
          · simp only [hrr, if_false] at hr
            exact hm r v hr
        · intro _
          simp
      · simp only [hz, if_false, ClosedOut.ok.injEq] at h
        obtain ⟨hm', -⟩ := h
        subst hm'
        refine ⟨?_, ?_⟩
        · intro r v hr
          by_cases hrr : r = rid
          · simp only [hrr, if_true, Option.some.injEq] at hr
            omega
          · simp only [hrr, if_false] at hr
            exact hm r v hr
        · intro h1
          omega

/-- Concrete refcount map: range 7 has one live scratch. -/
def m0 : RefMap := fun r => if r = 7 then some 1 else none

/-- Concrete empty filesystem. -/
def fs0 : FS := ⟨[], []⟩

/-- Concrete open scratch for range 7, as built by `NewScratchSpace`. -/
def sc0 : SSTSnapshotStorageScratch :=
  { root := ["aux", "sstsnapshot"]
    rangeID := 7
    snapDir := ["aux", "sstsnapshot", "7", "u1"]
    ssts := []
    dirCreated := false
    closed := false }

/-- The concrete map `m0` satisfies the refcount invariant. -/
lemma m0_inv : refInv m0 := by
  intro r v h
  unfold m0 at h
  split at h
  · simp only [Option.some.injEq] at h
    omega
  · exact absurd h (by simp)

/-- Witness for C4 at the concrete map `m0`. -/
theorem rangeRefCount_invariant_witness :
    refInv m0 ∧
    (refInv (NewScratchSpace m0 ["d"] 7 "u1").1 ∧
     (m0 7 = none → (NewScratchSpace m0 ["d"] 7 "u1").1 7 = some 1) ∧
     (∀ m' fs', scratchClosed m0 ["d"] 7 fs0 none = .ok m' fs' →
       refInv m' ∧ (refGet m0 7 = 1 → m' 7 = none))) :=
  ⟨m0_inv, rangeRefCount_invariant m0 ["d"] 7 "u1" fs0 none m0_inv⟩

/-- C1: `SSTSnapshotStorageScratch.Close` is idempotent — the first call on
an open scratch (with a consistent refcount) returns with `decremented =
true` and the closed scratch, and any call on a scratch handed back by
`Close` is a no-op returning success without touching the map, the
filesystem, or the refcount. -/
theorem scratchClose_idempotent (sc : SSTSnapshotStorageScratch) (m : RefMap) (fs : FS)
    (removeErr rangeRemoveErr : Option Err)
    (hopen : sc.closed = false) (href : 1 ≤ refGet m sc.rangeID) :
    (∃ m' fs', sc.Close m fs removeErr rangeRemoveErr =
        .returned { sc with closed := true } m' fs' true removeErr) ∧
    (∀ sc' m' fs' d r, sc.Close m fs removeErr rangeRemoveErr = .returned sc' m' fs' d r →
      ∀ m2 fs2 e2 eR2, sc'.Close m2 fs2 e2 eR2 = .returned sc' m2 fs2 false none) := by
  constructor
  · unfold SSTSnapshotStorageScratch.Close
    simp only [hopen, Bool.false_eq_true, if_false]
    unfold scratchClosed
    have h0 : ¬ (refGet m sc.rangeID ≤ 0) := by omega
    simp only [h0, if_false]
    by_cases hz : refGet m sc.rangeID - 1 = 0
    · simp only [hz, if_true]
      exact ⟨_, _, rfl⟩
    · simp only [hz, if_false]
      exact ⟨_, _, rfl⟩
  · intro sc' m' fs' d r h m2 fs2 e2 eR2
    have hcl := close_returns_closed h
    unfold SSTSnapshotStorageScratch.Close
    simp [hcl]

/-- Witness for C1 at the concrete scratch `sc0` and map `m0`. -/
theorem scratchClose_idempotent_witness :
    sc0.closed = false ∧ 1 ≤ refGet m0 sc0.rangeID ∧
    ((∃ m' fs', sc0.Close m0 fs0 none none =
        .returned { sc0 with closed := true } m' fs' true none) ∧
     (∀ sc' m' fs' d r, sc0.Close m0 fs0 none none = .returned sc' m' fs' d r →
       ∀ m2 fs2 e2 eR2, sc'.Close m2 fs2 e2 eR2 = .returned sc' m2 fs2 false none)) :=
  ⟨rfl, by decide, scratchClose_idempotent sc0 m0 fs0 none none rfl (by decide)⟩

/-- C2: the first `Close` on an open scratch sets the closed flag, removes
the scratch's subdirectory recursively (when the removal succeeds), always
decrements the range's refcount by exactly one — also when the removal
errored — and returns exactly the removal's outcome. -/
theorem scratchClose_first_call (sc : SSTSnapshotStorageScratch) (m : RefMap) (fs : FS)
    (removeErr rangeRemoveErr : Option Err)
    (hopen : sc.closed = false) (href : 1 ≤ refGet m sc.rangeID) :
    ∃ m' fs', sc.Close m fs removeErr rangeRemoveErr =
        .returned { sc with closed := true } m' fs' true removeErr ∧
      refGet m' sc.rangeID = refGet m sc.rangeID - 1 ∧
      (removeErr = none → noEntryUnder fs' sc.snapDir) := by
  unfold SSTSnapshotStorageScratch.Close
  simp only [hopen, Bool.false_eq_true, if_false]
  unfold scratchClosed
  have h0 : ¬ (refGet m sc.rangeID ≤ 0) := by omega
  simp only [h0, if_false]
  by_cases hz : refGet m sc.rangeID - 1 = 0
  · simp only [hz, if_true]
    refine ⟨_, _, rfl, ?_, ?_⟩
    · simp [refGet]
    · intro hre
      subst hre
      simp only [Option.isSome_none, Bool.false_eq_true, if_false]
      cases hR : rangeRemoveErr.isSome
      · simp only [Bool.false_eq_true, if_false]
        exact noEntryUnder_fsRemoveAll_mono _ _ _ (noEntryUnder_fsRemoveAll fs sc.snapDir)
      · simp only [if_true]
        exact noEntryUnder_fsRemoveAll fs sc.snapDir
  · simp only [hz, if_false]
    refine ⟨_, _, rfl, ?_, ?_⟩
    · simp [refGet]
    · intro hre
      subst hre
      simp only [Option.isSome_none, Bool.false_eq_true, if_false]
      exact noEntryUnder_fsRemoveAll fs sc.snapDir

/-- Witness for C2 at the concrete scratch `sc0` and map `m0`, with a failed
removal injected to exercise the unconditional decrement. -/
theorem scratchClose_first_call_witness :
    sc0.closed = false ∧ 1 ≤ refGet m0 sc0.rangeID ∧
    (∃ m' fs', sc0.Close m0 fs0 (some .ioErr) none =
        .returned { sc0 with closed := true } m' fs' true (some .ioErr) ∧
      refGet m' sc0.rangeID = refGet m0 sc0.rangeID - 1 ∧
      (some Err.ioErr = none → noEntryUnder fs' sc0.snapDir)) :=
  ⟨rfl, by decide, scratchClose_first_call sc0 m0 fs0 (some .ioErr) none rfl (by decide)⟩

/-- The concrete scratch `sc0` with its closed flag set. -/
def sc0closed : SSTSnapshotStorageScratch := { sc0 with closed := true }

/-- C5 counterexample: `WriteSST` with empty bytes on a scratch whose closed
flag is set does not succeed — the closed check precedes the empty-data
check, so the claim's "with no further precondition on the scratch's state"
fails. -/
theorem writeSST_empty_closed_cex :
    sc0closed.WriteSST fs0 [] none none false none none none none =
      .returned sc0closed fs0 (some .assertScratchClosed) ∧
    some Err.assertScratchClosed ≠ (none : Option Err) :=
  ⟨rfl, by decide⟩

/-- C5 (amended): on every scratch that is NOT closed, `WriteSST` with empty
bytes returns no error, creates no file, and changes nothing — the scratch
(hence `SSTs`) and the filesystem are returned unchanged. -/
theorem writeSST_empty_noop (sc : SSTSnapshotStorageScratch) (fs : FS)
    (mkdirErr createErr : Option Err) (canceled : Bool)
    (writeErr syncErr closeErr closeErr2 : Option Err)
    (hopen : sc.closed = false) :
    sc.WriteSST fs [] mkdirErr createErr canceled writeErr syncErr closeErr closeErr2 =
      .returned sc fs none := by
  unfold SSTSnapshotStorageScratch.WriteSST
  simp [hopen]

/-- Witness for the amended C5 at the concrete open scratch `sc0`. -/
theorem writeSST_empty_noop_witness :
    sc0.closed = false ∧
    sc0.WriteSST fs0 [] none none false none none none none = .returned sc0 fs0 none :=
  ⟨rfl, writeSST_empty_noop sc0 fs0 none none false none none none none rfl⟩

/-- Iterating `NewFile` on an open scratch always succeeds, hands out the
files named after consecutive sequence numbers starting at the current
`ssts` length, and appends exactly those names to `ssts` in order. -/
lemma iterNewFile_spec (b : Int) (N : Nat) :
    ∀ sc : SSTSnapshotStorageScratch, sc.closed = false →
      (iterNewFile sc b N).1 = (List.range N).map (fun i => Except.ok
        { created := false, hasHandle := false,
          filename := sc.filename (sc.ssts.length + i), bytesPerSync := b }) ∧
      (iterNewFile sc b N).2 =
        { sc with ssts := sc.ssts ++
            (List.range N).map (fun i => sc.filename (sc.ssts.length + i)) } := by
  induction N with
  | zero => intro sc h; simp [iterNewFile]
  | succ n ih =>
    intro sc h
    have step : sc.NewFile b =
        (.ok { created := false, hasHandle := false,
               filename := sc.filename sc.ssts.length, bytesPerSync := b },
         { sc with ssts := sc.ssts ++ [sc.filename sc.ssts.length] }) := by
      unfold SSTSnapshotStorageScratch.NewFile
      simp [h]
    obtain ⟨ih1, ih2⟩ := ih { sc with ssts := sc.ssts ++ [sc.filename sc.ssts.length] } h
    constructor
    · simp only [iterNewFile, step, ih1]
      simp [SSTSnapshotStorageScratch.filename, List.range_succ_eq_map, List.map_map,
        Function.comp, Nat.add_assoc, Nat.add_comm, Nat.add_left_comm]
    · simp only [iterNewFile, step, ih2]
      simp [SSTSnapshotStorageScratch.filename, List.range_succ_eq_map, List.map_map,
        Function.comp, Nat.add_assoc, Nat.add_comm, Nat.add_left_comm]

/-- C6: on a scratch freshly created by `NewScratchSpace`, `N` calls to
`NewFile` all succeed and hand out exactly the files
`dir/rangeID/snapUUID/0.sst` … `dir/rangeID/snapUUID/(N-1).sst` in creation
order; after any number `k` of calls, `SSTs` returns exactly the first `k`
of those names in that order — each name was appended at `NewFile` time, and
the sequence number is the running count of names handed out, independent of
any writes. -/
theorem newFile_sequential_names (m : RefMap) (dir : FPath) (rid : RangeID) (u : String)
    (b : Int) (N : Nat) :
    (iterNewFile (NewScratchSpace m dir rid u).2 b N).1 =
      (List.range N).map (fun i => Except.ok
        { created := false, hasHandle := false,
          filename := dir ++ [toString rid, u, toString i ++ ".sst"], bytesPerSync := b }) ∧
    ∀ k, SSTs (iterNewFile (NewScratchSpace m dir rid u).2 b k).2 =
      (List.range k).map (fun i => dir ++ [toString rid, u, toString i ++ ".sst"]) := by
  constructor
  · obtain ⟨h1, -⟩ := iterNewFile_spec b N (NewScratchSpace m dir rid u).2 rfl
    rw [h1]
    simp [NewScratchSpace, SSTSnapshotStorageScratch.filename]
  · intro k
    obtain ⟨-, h2⟩ := iterNewFile_spec b k (NewScratchSpace m dir rid u).2 rfl
    rw [SSTs, h2]
    simp [NewScratchSpace, SSTSnapshotStorageScratch.filename]

/-- An already-created file with a live handle makes `ensureFile` a no-op
success. -/
lemma ensureFile_live (f : SSTSnapshotStorageFile) (sc : SSTSnapshotStorageScratch) (fs : FS)
    (mkdirErr createErr : Option Err) (h1 : f.created = true) (h2 : f.hasHandle = true) :
    f.ensureFile sc fs mkdirErr createErr = ⟨f, sc, fs, none⟩ := by
  unfold SSTSnapshotStorageFile.ensureFile
  simp [h1, h2]

/-- On a closed scratch with no directory yet, `ensureFile` of an uncreated
file first creates the snapshot directory (given a successful `MkdirAll`)
and only then fails the closed check. -/
lemma ensureFile_closed_scratch (f : SSTSnapshotStorageFile) (sc : SSTSnapshotStorageScratch)
    (fs : FS) (createErr : Option Err)
    (hf : f.created = false) (hdir : sc.dirCreated = false) (hclosed : sc.closed = true) :
    f.ensureFile sc fs none createErr =
      ⟨f, { sc with dirCreated := true }, fsMkdirAll fs sc.snapDir,
        some .assertScratchClosed⟩ := by
  unfold SSTSnapshotStorageFile.ensureFile SSTSnapshotStorageScratch.createDir
  simp [hf, hdir, hclosed]

/-- C7: closing a never-created file returns the "file is empty" error and
changes nothing; closing an already-released (created, handle gone) file is
a successful no-op. -/
theorem fileClose_empty_and_idempotent (f : SSTSnapshotStorageFile) (e : Option Err) :
    (f.created = false → f.Close e = (f, some .fileIsEmpty)) ∧
    (f.created = true → f.hasHandle = false → f.Close e = (f, none)) := by
  constructor
  · intro h
    unfold SSTSnapshotStorageFile.Close
    simp [h]
  · intro h1 h2
    unfold SSTSnapshotStorageFile.Close
    simp [h1, h2]

/-- Concrete never-created file. -/
def fEmpty : SSTSnapshotStorageFile :=
  { created := false, hasHandle := false
    filename := ["aux", "sstsnapshot", "7", "u1", "0.sst"], bytesPerSync := 0 }

/-- Concrete created file whose handle was already released. -/
def fClosed : SSTSnapshotStorageFile := { fEmpty with created := true }

/-- Concrete created file with a live handle. -/
def fOpen : SSTSnapshotStorageFile := { fEmpty with created := true, hasHandle := true }

/-- Witness for C7 at the concrete files `fEmpty` and `fClosed`. -/
theorem fileClose_empty_and_idempotent_witness :
    (fEmpty.created = false ∧ fEmpty.Close none = (fEmpty, some .fileIsEmpty)) ∧
    (fClosed.created = true ∧ fClosed.hasHandle = false ∧ fClosed.Close none = (fClosed, none)) :=
  ⟨⟨rfl, (fileClose_empty_and_idempotent fEmpty none).1 rfl⟩,
   ⟨rfl, rfl, (fileClose_empty_and_idempotent fClosed none).2 rfl rfl⟩⟩

/-- C8: when `ensureFile` succeeds, `Write` of non-empty contents submits
exactly one admission request for exactly `contents.length` bytes; and when
the context is cancelled during admission, `Write` fails with the
cancellation error, writes no bytes (`n = 0`) and leaves the filesystem as
`ensureFile` left it — in particular, on an already-materialized file the
filesystem is completely untouched. (`limitBulkIOWrite` is modelled from
the spec; see its definition.) -/
theorem fileWrite_admission_exact (f : SSTSnapshotStorageFile)
    (sc : SSTSnapshotStorageScratch) (fs : FS) (contents : List Nat)
    (mkdirErr createErr : Option Err) (canceled : Bool) (writeErr : Option Err)
    (hne : contents ≠ []) :
    ((f.ensureFile sc fs mkdirErr createErr).res = none →
      (f.Write sc fs contents mkdirErr createErr canceled writeErr).requests =
        [contents.length]) ∧
    ((f.ensureFile sc fs mkdirErr createErr).res = none → canceled = true →
      (f.Write sc fs contents mkdirErr createErr canceled writeErr).res =
          some .ctxCanceled ∧
        (f.Write sc fs contents mkdirErr createErr canceled writeErr).fs =
          (f.ensureFile sc fs mkdirErr createErr).fs ∧
        (f.Write sc fs contents mkdirErr createErr canceled writeErr).n = 0) ∧
    (f.created = true → f.hasHandle = true → canceled = true →
      (f.Write sc fs contents mkdirErr createErr canceled writeErr).fs = fs) := by
  have hlen : ¬ (contents.length = 0) := by simpa using hne
  refine ⟨?_, ?_, ?_⟩
  · intro h
    unfold SSTSnapshotStorageFile.Write limitBulkIOWrite
    rw [if_neg hlen]
    simp only [h]
    cases canceled <;> cases writeErr <;> simp
  · intro h hc
    subst hc
    unfold SSTSnapshotStorageFile.Write limitBulkIOWrite
    rw [if_neg hlen]
    simp only [h]
    simp
  · intro h1 h2 hc
    subst hc
    unfold SSTSnapshotStorageFile.Write limitBulkIOWrite
    rw [if_neg hlen]
    rw [ensureFile_live f sc fs mkdirErr createErr h1 h2]
    simp

/-- Witness for C8: cancelled admission on a materialized file with concrete
contents `[1, 2, 3]`. -/
theorem fileWrite_admission_exact_witness :
    ([1, 2, 3] : List Nat) ≠ [] ∧
    (((fOpen.ensureFile sc0 fs0 none none).res = none →
      (fOpen.Write sc0 fs0 [1, 2, 3] none none true none).requests =
        [([1, 2, 3] : List Nat).length]) ∧
     ((fOpen.ensureFile sc0 fs0 none none).res = none → true = true →
      (fOpen.Write sc0 fs0 [1, 2, 3] none none true none).res = some .ctxCanceled ∧
        (fOpen.Write sc0 fs0 [1, 2, 3] none none true none).fs =
          (fOpen.ensureFile sc0 fs0 none none).fs ∧
        (fOpen.Write sc0 fs0 [1, 2, 3] none none true none).n = 0) ∧
     (fOpen.created = true → fOpen.hasHandle = true → true = true →
      (fOpen.Write sc0 fs0 [1, 2, 3] none none true none).fs = fs0)) :=
  ⟨by decide, fileWrite_admission_exact fOpen sc0 fs0 [1, 2, 3] none none true none (by decide)⟩

/-- C9: `Sync` has no lifecycle guard — whenever the handle is absent it is
a nil dereference (Go panic), not a state error; and an absent handle is
reachable from the public interface both via a fresh `NewFile` (never
written) and via a completed `Close` on a materialized file. -/
theorem fileSync_nil_deref (f : SSTSnapshotStorageFile) (syncErr : Option Err)
    (sc : SSTSnapshotStorageScratch) (b : Int) :
    (f.hasHandle = false → f.Sync syncErr = .nilDeref) ∧
    (∀ g sc', sc.NewFile b = (.ok g, sc') →
      g.hasHandle = false ∧ g.Sync syncErr = .nilDeref) ∧
    (f.created = true → f.hasHandle = true →
      (f.Close none).1.hasHandle = false ∧ (f.Close none).1.Sync syncErr = .nilDeref) := by
  refine ⟨?_, ?_, ?_⟩
  · intro h
    unfold SSTSnapshotStorageFile.Sync
    simp [h]
  · intro g sc' h
    unfold SSTSnapshotStorageScratch.NewFile at h
    split at h
    · simp at h
    · simp only [Prod.mk.injEq, Except.ok.injEq] at h
      have hg : g.hasHandle = false := by rw [← h.1]
      exact ⟨hg, by unfold SSTSnapshotStorageFile.Sync; simp [hg]⟩
  · intro h1 h2
    have hc : (f.Close none).1 = { f with hasHandle := false } := by
      unfold SSTSnapshotStorageFile.Close
      simp [h1, h2]
    rw [hc]
    exact ⟨rfl, by unfold SSTSnapshotStorageFile.Sync; simp⟩

/-- Witness for C9: the fresh file `fEmpty`, the scratch `sc0`, and the open
file `fOpen` closed once. -/
theorem fileSync_nil_deref_witness :
    (fEmpty.hasHandle = false ∧ fEmpty.Sync none = .nilDeref) ∧
    (fOpen.created = true ∧ fOpen.hasHandle = true ∧
      (fOpen.Close none).1.hasHandle = false ∧ (fOpen.Close none).1.Sync none = .nilDeref) :=
  ⟨⟨rfl, (fileSync_nil_deref fEmpty none sc0 0).1 rfl⟩,
   ⟨rfl, rfl, (fileSync_nil_deref fOpen none sc0 0).2.2 rfl rfl⟩⟩

/-- C10: a non-empty `Write` to a fresh file of a closed scratch that never
materialized its directory first creates the snapshot directory (setting
`dirCreated`) and only then fails with the closed-scratch error; the
directory it created stays behind, and the scratch's own cleanup (`Close`)
is a no-op that removes nothing. -/
theorem fileWrite_closed_scratch_leaves_dir (f : SSTSnapshotStorageFile)
    (sc : SSTSnapshotStorageScratch) (fs : FS) (contents : List Nat)
    (createErr : Option Err) (canceled : Bool) (writeErr : Option Err)
    (hclosed : sc.closed = true) (hdir : sc.dirCreated = false) (hf : f.created = false)
    (hne : contents ≠ []) :
    (f.Write sc fs contents none createErr canceled writeErr).res =
        some .assertScratchClosed ∧
    sc.snapDir ∈ (f.Write sc fs contents none createErr canceled writeErr).fs.dirs ∧
    (f.Write sc fs contents none createErr canceled writeErr).sc.dirCreated = true ∧
    ∀ m fs2 e eR,
      ((f.Write sc fs contents none createErr canceled writeErr).sc).Close m fs2 e eR =
        .returned (f.Write sc fs contents none createErr canceled writeErr).sc m fs2
          false none := by
  have hlen : ¬ (contents.length = 0) := by simpa using hne
  have hw : f.Write sc fs contents none createErr canceled writeErr =
      ⟨f, { sc with dirCreated := true }, fsMkdirAll fs sc.snapDir, 0, [],
        some .assertScratchClosed⟩ := by
    unfold SSTSnapshotStorageFile.Write
    rw [if_neg hlen, ensureFile_closed_scratch f sc fs createErr hf hdir hclosed]
  rw [hw]
  refine ⟨rfl, ?_, rfl, ?_⟩
  · simp [fsMkdirAll]
  · intro m fs2 e eR
    unfold SSTSnapshotStorageScratch.Close
    simp [hclosed]

/-- Witness for C10 at the closed concrete scratch `sc0closed` and the fresh
file `fEmpty`. -/
theorem fileWrite_closed_scratch_leaves_dir_witness :
    sc0closed.closed = true ∧ sc0closed.dirCreated = false ∧ fEmpty.created = false ∧
    ([1] : List Nat) ≠ [] ∧
    ((fEmpty.Write sc0closed fs0 [1] none none false none).res =
        some .assertScratchClosed ∧
      sc0closed.snapDir ∈ (fEmpty.Write sc0closed fs0 [1] none none false none).fs.dirs ∧
      (fEmpty.Write sc0closed fs0 [1] none none false none).sc.dirCreated = true ∧
      ∀ m fs2 e eR,
        ((fEmpty.Write sc0closed fs0 [1] none none false none).sc).Close m fs2 e eR =
          .returned (fEmpty.Write sc0closed fs0 [1] none none false none).sc m fs2
            false none) :=
  ⟨rfl, rfl, rfl, by decide,
    fileWrite_closed_scratch_leaves_dir fEmpty sc0closed fs0 [1] none false none
      rfl rfl rfl (by decide)⟩
